import Mathlib

/-!
Shallow embedding of `flask_oauthlib/provider/oauth1.py` (OAuth1 provider
core).  Store callbacks (client getter, token getter/setter, nonce
getter/setter, verifier getter/setter) are modelled as explicit function
parameters; the per-call scratch `request` object is modelled by passing its
cached fields (`request.client`, `request.request_token`,
`request.access_token`) as explicit `Option` arguments.  A Python attribute
dereference on `None` and a raised `RuntimeError` are modelled with
`Except PyFault`.
-/

/-- Faults a validator method can raise to the hosting process. -/
inductive PyFault
  | attributeError
  | runtimeError
deriving DecidableEq, Repr

/-- Client record as documented for the client getter: `client_key`,
`client_secret`, `redirect_uris`, `default_realms`, and an optional custom
`validate_realms` method (the `hasattr(client, 'validate_realms')` check in
`validate_requested_realms`). -/
structure Client where
  client_key : String
  client_secret : String
  redirect_uris : List String
  default_realms : List String
  validate_realms_method : Option (List String → Bool)

/-- Request token ("grant") record. -/
structure RequestToken where
  token : String
  secret : String
  client_key : String
  redirect_uri : Option String
deriving DecidableEq, Repr

/-- Access token record. -/
structure AccessToken where
  token : String
  secret : String
  client_key : String
  realms : List String
deriving DecidableEq, Repr

/-- Verifier record returned by the verifier getter; `client_key := none`
models a record without a `client_key` attribute (the
`hasattr(data, 'client_key')` check in `validate_verifier`). -/
structure VerifierData where
  client_key : Option String
deriving DecidableEq, Repr

/-- Composite key of a nonce record: (`client_key`, `timestamp`, `nonce`,
optional `request_token`, optional `access_token`).  The `nonce` column is an
`Option` because the code can hand the setter the value `None` in place of a
nonce string. -/
structure NonceKey where
  client_key : String
  timestamp : String
  nonce : Option String
  request_token : Option String
  access_token : Option String
deriving DecidableEq, Repr

/-- The nonce store is the set of composite keys recorded so far. -/
abbrev NonceStore := List NonceKey

/-- Registered nonce getter: returns the existing record for the composite
key, or absent. -/
def noncegetter (store : NonceStore) (k : NonceKey) : Option NonceKey :=
  if k ∈ store then some k else none

/-- Registered nonce setter: records the composite key. -/
def noncesetter (store : NonceStore) (k : NonceKey) : NonceStore :=
  k :: store

/-- Embedding of `OAuth1RequestValidator.validate_timestamp_and_nonce`
(oauth1.py lines 520-536).  The source rebinds the parameter:
`nonce = self._noncegetter(..., nonce=nonce, ...)`, so on the success path the
subsequent `self._noncesetter(..., nonce=nonce, ...)` call receives the getter
result — which is `None` on first sight — instead of the presented nonce
string.  Returns the verdict and the updated store. -/
def validate_timestamp_and_nonce (store : NonceStore)
    (client_key timestamp nonce : String)
    (request_token access_token : Option String) : Bool × NonceStore :=
  let nonce := noncegetter store
    { client_key := client_key, timestamp := timestamp, nonce := some nonce,
      request_token := request_token, access_token := access_token }
  match nonce with
  | some _ => (false, store)
  | none =>
      (true, noncesetter store
        { client_key := client_key, timestamp := timestamp,
          nonce := none,
          request_token := request_token, access_token := access_token })

/-- Resolution of `request.client`: `if not request.client: request.client =
self._clientgetter(client_key=client_key)` then read `request.client`. -/
def resolve_client (clientgetter : String → Option Client)
    (request_client : Option Client) (client_key : String) : Option Client :=
  match request_client with
  | some c => some c
  | none => clientgetter client_key

/-- Resolution of `request.request_token or self._grantgetter(token=token)`. -/
def resolve_request_token (grantgetter : String → Option RequestToken)
    (request_request_token : Option RequestToken) (token : String) :
    Option RequestToken :=
  match request_request_token with
  | some tok => some tok
  | none => grantgetter token

/-- Resolution of `request.access_token` or
`self._tokengetter(client_key=client_key, token=token)`. -/
def resolve_access_token (tokengetter : String → String → Option AccessToken)
    (request_access_token : Option AccessToken)
    (client_key token : String) : Option AccessToken :=
  match request_access_token with
  | some tok => some tok
  | none => tokengetter client_key token

/-- Embedding of `OAuth1RequestValidator.get_client_secret` (lines 430-436):
returns the client secret when the client resolves, else `None`. -/
def get_client_secret (clientgetter : String → Option Client)
    (request_client : Option Client) (client_key : String) : Option String :=
  match resolve_client clientgetter request_client client_key with
  | some c => some c.client_secret
  | none => none

/-- Embedding of `OAuth1RequestValidator.get_redirect_uri` (lines 482-486):
`tok = request.request_token or self._grantgetter(token=token)` followed by
`return tok.redirect_uri`; when both are absent, `tok` is `None` and the
attribute dereference raises. -/
def get_redirect_uri (grantgetter : String → Option RequestToken)
    (request_request_token : Option RequestToken)
    (token : String) : Except PyFault (Option String) :=
  match resolve_request_token grantgetter request_request_token token with
  | some tok => .ok tok.redirect_uri
  | none => .error .attributeError

/-- Embedding of `OAuth1RequestValidator.validate_realms` (lines 562-570):
resolves the access token, then returns
`set(tok.realms).issuperset(set(realms))`; when the token is absent, `tok` is
`None` and `tok.realms` raises. -/
def validate_realms (tokengetter : String → String → Option AccessToken)
    (request_access_token : Option AccessToken)
    (client_key token : String) (realms : List String) :
    Except PyFault Bool :=
  match resolve_access_token tokengetter request_access_token client_key token with
  | some tok => .ok (decide (realms.toFinset ⊆ tok.realms.toFinset))
  | none => .error .attributeError

/-- Embedding of `OAuth1RequestValidator.validate_requested_realms`
(lines 550-560): a client-supplied `validate_realms` method wins; otherwise
the superset check `set(client.default_realms).issuperset(set(realms))` is
computed, but both the then branch and the fall-through return `True`.  When
the client is absent, `client.default_realms` raises. -/
def validate_requested_realms (clientgetter : String → Option Client)
    (request_client : Option Client)
    (client_key : String) (realms : List String) : Except PyFault Bool :=
  match resolve_client clientgetter request_client client_key with
  | none => .error .attributeError
  | some client =>
    match client.validate_realms_method with
    | some custom => .ok (custom realms)
    | none =>
      if realms.toFinset ⊆ client.default_realms.toFinset then
        .ok true
      else
        .ok true

/-- Embedding of `OAuth1RequestValidator.validate_verifier` (lines 572-582):
`true` when no verifier getter is registered (verifier disabled); otherwise
`false` when no record exists for `(verifier, token)`; otherwise the
`client_key` comparison when the record has that attribute, else `true`. -/
def validate_verifier
    (verifiergetter : Option (String → String → Option VerifierData))
    (client_key token verifier : String) : Bool :=
  match verifiergetter with
  | none => true
  | some getter =>
    match getter verifier token with
    | none => false
    | some data =>
      match data.client_key with
      | some k => decide (k = client_key)
      | none => true

/-- Observable invocations of the registered verifier store callbacks. -/
inductive VerifierStoreCall
  | getter_invoked (token verifier request : String)
  | setter_invoked (token verifier request : String)
deriving DecidableEq, Repr

/-- Embedding of `OAuth1RequestValidator.save_verifier` (lines 614-619): the
guard tests that `self._verifiersetter` is registered, but the body then
invokes `self._verifiergetter(token=token, verifier=verifier,
request=request)`.  The result is the list of store callbacks invoked. -/
def save_verifier (verifiersetter_registered : Bool)
    (token verifier request : String) : List VerifierStoreCall :=
  if verifiersetter_registered then
    [VerifierStoreCall.getter_invoked token verifier request]
  else
    []

/-- Outcome of the decorated resource handler produced by `require_oauth`:
either the request was aborted with an HTTP status, or the wrapped handler ran
and produced a result. -/
inductive RequireOauthOutcome (α : Type)
  | aborted (status : Nat)
  | handled (result : α)
deriving DecidableEq, Repr

/-- Embedding of the function produced by `OAuth1Provider.require_oauth`
(lines 301-315).  `validation` is the pair returned by
`server.validate_protected_resource_request` (the verdict and the resolved
request context of type `β`); `f` is the wrapped resource handler, receiving
its argument list; on a false verdict the decorator calls `abort(403)`, and on
a true verdict it calls `f(*((req,) + args))`. -/
def require_oauth_decorated {α β : Type} (validation : Bool × β)
    (f : List β → α) (args : List β) : RequireOauthOutcome α :=
  let valid := validation.1
  let req := validation.2
  if !valid then
    .aborted 403
  else
    .handled (f (req :: args))

/-- URI modelled structurally as a base plus a list of query parameters. -/
structure Uri where
  base : String
  params : List (String × String)
deriving DecidableEq, Repr

/-- Model of `oauthlib.common.add_params_to_uri` (external library): appends
the given parameters to the query of the URI. -/
def add_params_to_uri (uri : Uri) (ps : List (String × String)) : Uri :=
  { uri with params := uri.params ++ ps }

/-- Outcome of the decorated authorization endpoint. -/
inductive AuthorizeOutcome
  | redirected (uri : Uri)
  | confirm_authorization
  | presentation
deriving DecidableEq, Repr

/-- Embedding of the function produced by `OAuth1Provider.authorize_handler`
(lines 224-244).  On `POST`, a falsy result of the wrapped confirmation
callback redirects to `add_params_to_uri(self.error_uri, [('error',
'denied')])`; a truthy result proceeds to
`self.confirm_authorization_request()`.  On other methods the decorator
resolves realms and credentials and calls the wrapped view (the presentation
sub-phase, not at issue here). -/
def authorize_handler_decorated (http_method : String) (error_uri : Uri)
    (confirm : Bool) : AuthorizeOutcome :=
  if http_method = "POST" then
    if !confirm then
      .redirected (add_params_to_uri error_uri [("error", "denied")])
    else
      .confirm_authorization
  else
    .presentation

/-- Inputs to the signature check, abstracted (the patched check in testing
mode is `lambda *args, **kwargs: True`, so the shape of the input never
matters). -/
abbrev SigArgs := List String

/-- The assembled server, reduced to the field the claims observe:
`_check_signature`. -/
structure ServerModel where
  check_signature : SigArgs → Bool

/-- Registration state of an `OAuth1Provider` plus the bound app flags, as
read by the `server` property: `hasattr(self, '_x')` for each callback,
`hasattr(self, '_validator')`, and `self.app.testing`. -/
structure ProviderState where
  clientgetter_registered : Bool
  tokengetter_registered : Bool
  tokensetter_registered : Bool
  noncegetter_registered : Bool
  noncesetter_registered : Bool
  grantgetter_registered : Bool
  grantsetter_registered : Bool
  verifiergetter_registered : Bool
  verifiersetter_registered : Bool
  validator_cached : Bool
  testing : Bool

/-- Embedding of the `OAuth1Provider.server` property (lines 87-130).
`default_check` is the signature check the oauthlib `Server` ships with.  A
cached validator short-circuits construction; otherwise the seven required
callbacks are demanded (the verifier getter and setter are fetched with a
`None` default and never gate construction), the server is built, its
`_check_signature` is replaced by the constant-true function when
`self.app.testing`, and a missing required callback raises `RuntimeError`. -/
def server (p : ProviderState) (default_check : SigArgs → Bool) :
    Except PyFault ServerModel :=
  if p.validator_cached then
    .ok { check_signature := default_check }
  else if p.clientgetter_registered && p.tokengetter_registered
      && p.tokensetter_registered && p.noncegetter_registered
      && p.noncesetter_registered && p.grantgetter_registered
      && p.grantsetter_registered then
    if p.testing then
      .ok { check_signature := fun _ => true }
    else
      .ok { check_signature := default_check }
  else
    .error .runtimeError

/-- C1: the claim says `validate_timestamp_and_nonce` records the exact
composite key so that a second presentation is rejected.  In the code the
rebound `nonce` makes the setter record the key with `nonce = None`, so the
second presentation of the very same composite key is accepted again: both
calls below return `true`, and the store after the first call holds the key
with an absent nonce instead of the presented nonce string. -/
theorem C1_replay_not_rejected :
    (validate_timestamp_and_nonce [] "client1" "137131200" "nonce1" none none).1
      = true ∧
    (validate_timestamp_and_nonce
        (validate_timestamp_and_nonce [] "client1" "137131200" "nonce1"
          none none).2
        "client1" "137131200" "nonce1" none none).1 = true ∧
    (validate_timestamp_and_nonce [] "client1" "137131200" "nonce1" none
        none).2 =
      [{ client_key := "client1", timestamp := "137131200", nonce := none,
         request_token := none, access_token := none }] := by
  decide

/-- C2: when the access token resolves, `validate_realms` returns `true`
exactly when the realms of the token are a superset of the required realms,
with set semantics (order irrelevant, duplicates collapse). -/
theorem C2_validate_realms_superset_iff
    (tokengetter : String → String → Option AccessToken)
    (request_access_token : Option AccessToken)
    (client_key token : String) (realms : List String) (tok : AccessToken)
    (h : resolve_access_token tokengetter request_access_token client_key token
        = some tok) :
    (validate_realms tokengetter request_access_token client_key token realms
        = .ok true ↔ realms.toFinset ⊆ tok.realms.toFinset) ∧
    (validate_realms tokengetter request_access_token client_key token realms
        = .ok true ↔ ∀ r ∈ realms, r ∈ tok.realms) := by
  unfold validate_realms
  rw [h]
  constructor
  · simp
  · simp [Finset.subset_iff, List.mem_toFinset]


/-- Witness for C2: the token getter returns a token with realms
`["email", "username"]`; requiring `["email"]` is accepted. -/
theorem C2_witness :
    (validate_realms
        (fun _ _ => some { token := "at1", secret := "s1", client_key := "ck1",
                           realms := ["email", "username"] })
        none "ck1" "at1" ["email"] = .ok true ↔
      (["email"] : List String).toFinset ⊆
        (["email", "username"] : List String).toFinset) ∧
    (validate_realms
        (fun _ _ => some { token := "at1", secret := "s1", client_key := "ck1",
                           realms := ["email", "username"] })
        none "ck1" "at1" ["email"] = .ok true ↔
      ∀ r ∈ ["email"], r ∈ ["email", "username"]) :=
  C2_validate_realms_superset_iff
    (fun _ _ => some { token := "at1", secret := "s1", client_key := "ck1",
                       realms := ["email", "username"] })
    none "ck1" "at1" ["email"]
    { token := "at1", secret := "s1", client_key := "ck1",
      realms := ["email", "username"] }
    rfl

/-- C3 counterexample: the claim says `validate_realms` and
`get_redirect_uri` return a failure verdict rather than fault when the token
getter returns absent; on the concrete input below both instead raise an
attribute fault (`tok` is `None` and `tok.redirect_uri` respectively
`tok.realms` is dereferenced). -/
theorem C3_counterexample :
    get_redirect_uri (fun _ => none) none "tok1" = .error .attributeError ∧
    validate_realms (fun _ _ => none) none "ck1" "tok1" ["email"]
      = .error .attributeError :=
  ⟨rfl, rfl⟩

/-- C3 amended: not every per-request error condition is converted into a
verdict.  `get_redirect_uri` and `validate_realms` raise an attribute fault
exactly when the request token respectively the access token resolves to
absent, and `validate_requested_realms` raises an attribute fault exactly
when the client resolves to absent; on a resolved lookup each returns a
value.  (`get_client_secret` and `validate_verifier` return plain verdicts by
construction: an optional secret and a boolean.) -/
theorem C3_fault_iff_resolution_absent
    (grantgetter : String → Option RequestToken)
    (tokengetter : String → String → Option AccessToken)
    (clientgetter : String → Option Client)
    (request_request_token : Option RequestToken)
    (request_access_token : Option AccessToken)
    (request_client : Option Client)
    (token client_key : String) (realms : List String) :
    (get_redirect_uri grantgetter request_request_token token
        = .error .attributeError ↔
      resolve_request_token grantgetter request_request_token token = none) ∧
    (validate_realms tokengetter request_access_token client_key token realms
        = .error .attributeError ↔
      resolve_access_token tokengetter request_access_token client_key token
        = none) ∧
    (validate_requested_realms clientgetter request_client client_key realms
        = .error .attributeError ↔
      resolve_client clientgetter request_client client_key = none) := by
  refine ⟨?_, ?_, ?_⟩
  · cases hrt : resolve_request_token grantgetter request_request_token token
      <;> simp [get_redirect_uri, hrt]
  · cases hat : resolve_access_token tokengetter request_access_token
        client_key token
      <;> simp [validate_realms, hat]
  · cases hc : resolve_client clientgetter request_client client_key with
    | none => simp [validate_requested_realms, hc]
    | some client =>
      cases hm : client.validate_realms_method
        <;> simp [validate_requested_realms, hc, hm]

/-- C4: the decorated resource handler aborts with HTTP 403 and never invokes
the wrapped handler when the validation verdict is false (the outcome is the
same for every handler `f` and `g`), and invokes the wrapped handler with the
resolved request context prepended to its arguments when the verdict is
true. -/
theorem C4_require_oauth_verdict {α β : Type} (req : β)
    (f : List β → α) (args : List β) :
    require_oauth_decorated (false, req) f args = .aborted 403 ∧
    (∀ g : List β → α,
      require_oauth_decorated (false, req) f args
        = require_oauth_decorated (false, req) g args) ∧
    require_oauth_decorated (true, req) f args = .handled (f (req :: args)) :=
  ⟨rfl, fun _ => rfl, rfl⟩

/-- C5 counterexample: the claim says `validate_verifier` returns true only
when a stored record exists that is bound to the requesting client; here the
registered getter returns a record that carries no `client_key` binding at
all, yet the result is true. -/
theorem C5_counterexample :
    validate_verifier (some (fun _ _ => some { client_key := none }))
      "ck1" "tok1" "v1" = true ∧
    (({ client_key := none } : VerifierData).client_key ≠ some "ck1") :=
  ⟨rfl, by simp⟩

/-- C5 amended: when no verifier getter is registered, `validate_verifier`
returns true (verifier disabled); when a getter is registered, it returns
true exactly when a record exists for `(verifier, token)` and that record
either carries no `client_key` or carries one equal to the claimed client
key. -/
theorem C5_validate_verifier_characterization
    (getter : String → String → Option VerifierData)
    (client_key token verifier : String) :
    validate_verifier none client_key token verifier = true ∧
    (validate_verifier (some getter) client_key token verifier = true ↔
      ∃ data, getter verifier token = some data ∧
        (data.client_key = none ∨ data.client_key = some client_key)) := by
  refine ⟨rfl, ?_⟩
  unfold validate_verifier
  cases hd : getter verifier token with
  | none => simp [hd]
  | some data =>
    cases hk : data.client_key with
    | none => simp [hd, hk]
    | some k => simp [hd, hk]

/-- C6: the claim says `save_verifier` persists the verifier by invoking the
registered verifier setter; in the code the guard tests the setter but the
body invokes the verifier getter, so the setter is never invoked — for every
input and registration state no setter invocation appears in the call trace,
and with a registered setter the trace is exactly one getter invocation
carrying the token, the verifier and the request. -/
theorem C6_setter_never_invoked (registered : Bool)
    (token verifier request : String) :
    (∀ t v r, VerifierStoreCall.setter_invoked t v r ∉
        save_verifier registered token verifier request) ∧
    save_verifier true token verifier request
      = [VerifierStoreCall.getter_invoked token verifier request] := by
  constructor
  · intro t v r
    cases registered <;> simp [save_verifier]
  · rfl

/-- C7: for a client without a custom `validate_realms` method,
`validate_requested_realms` returns true for every requested realm list —
the superset check against the default realms of the client is computed but
both branches return true. -/
theorem C7_requested_realms_always_true
    (clientgetter : String → Option Client) (request_client : Option Client)
    (client_key : String) (realms : List String) (client : Client)
    (h : resolve_client clientgetter request_client client_key = some client)
    (hm : client.validate_realms_method = none) :
    validate_requested_realms clientgetter request_client client_key realms
      = .ok true := by
  simp [validate_requested_realms, h, hm]

/-- Concrete client for the C7 witness: default realms `["email"]`, no custom
realm validation method. -/
def c7_client : Client :=
  { client_key := "ck1", client_secret := "cs1", redirect_uris := [],
    default_realms := ["email"], validate_realms_method := none }

/-- Witness for C7: the requested realms `["email", "address"]` are not a
subset of the default realms `["email"]`, yet the verdict is true. -/
theorem C7_witness :
    validate_requested_realms (fun _ => some c7_client) none "ck1"
      ["email", "address"] = .ok true :=
  C7_requested_realms_always_true (fun _ => some c7_client) none "ck1"
    ["email", "address"] c7_client rfl rfl

/-- C8: with no cached validator, constructing the server raises
`RuntimeError` exactly when one of the seven required callbacks (client
getter, access-token getter and setter, nonce getter and setter,
request-token getter and setter) is not registered, and the outcome never
depends on the optional verifier getter and setter registrations. -/
theorem C8_server_requires_seven_callbacks
    (p : ProviderState) (default_check : SigArgs → Bool)
    (h : p.validator_cached = false) :
    (server p default_check = .error .runtimeError ↔
      (p.clientgetter_registered && p.tokengetter_registered
        && p.tokensetter_registered && p.noncegetter_registered
        && p.noncesetter_registered && p.grantgetter_registered
        && p.grantsetter_registered) = false) ∧
    (∀ b1 b2 : Bool,
      server { p with verifiergetter_registered := b1,
                      verifiersetter_registered := b2 } default_check
        = server p default_check) := by
  constructor
  · cases hall : (p.clientgetter_registered && p.tokengetter_registered
        && p.tokensetter_registered && p.noncegetter_registered
        && p.noncesetter_registered && p.grantgetter_registered
        && p.grantsetter_registered) with
    | true =>
      cases ht : p.testing <;> simp [server, h, hall, ht]
    | false =>
      simp [server, h, hall]
  · intro b1 b2
    rfl

/-- Provider state for the C8 witness: nothing registered, no cached
validator. -/
def c8_provider : ProviderState :=
  { clientgetter_registered := false, tokengetter_registered := false,
    tokensetter_registered := false, noncegetter_registered := false,
    noncesetter_registered := false, grantgetter_registered := false,
    grantsetter_registered := false, verifiergetter_registered := false,
    verifiersetter_registered := false, validator_cached := false,
    testing := false }

/-- Witness for C8: with the client getter (among others) unregistered, the
server construction raises `RuntimeError`. -/
theorem C8_witness :
    server c8_provider (fun _ => false) = .error .runtimeError :=
  (C8_server_requires_seven_callbacks c8_provider (fun _ => false) rfl).1.mpr
    rfl

/-- C9: on a `POST` to the authorization endpoint whose confirmation callback
returns a falsy decision, the decorated handler redirects to the error URI
with the query parameter `error=denied` appended and does not proceed to
create an authorization response. -/
theorem C9_denied_redirects_with_error (error_uri : Uri) (confirm : Bool)
    (h : confirm = false) :
    authorize_handler_decorated "POST" error_uri confirm =
      .redirected { base := error_uri.base,
                    params := error_uri.params ++ [("error", "denied")] } ∧
    authorize_handler_decorated "POST" error_uri confirm
      ≠ .confirm_authorization := by
  subst h
  exact ⟨rfl, by simp [authorize_handler_decorated]⟩

/-- Witness for C9: with the default error page and a denied confirmation,
the outcome is a redirect to the error page with `error=denied`. -/
theorem C9_witness :
    authorize_handler_decorated "POST" { base := "/oauth/errors", params := [] }
      false =
      .redirected { base := "/oauth/errors",
                    params := [("error", "denied")] } ∧
    authorize_handler_decorated "POST" { base := "/oauth/errors", params := [] }
      false ≠ .confirm_authorization :=
  C9_denied_redirects_with_error { base := "/oauth/errors", params := [] }
    false rfl

/-- C10: when the bound app has testing mode enabled, all seven required
callbacks are registered and no validator is cached, the constructed server
has a signature check that returns true on every input, whatever the default
check was. -/
theorem C10_testing_disables_signature_check
    (p : ProviderState) (default_check : SigArgs → Bool)
    (h0 : p.validator_cached = false)
    (hall : (p.clientgetter_registered && p.tokengetter_registered
        && p.tokensetter_registered && p.noncegetter_registered
        && p.noncesetter_registered && p.grantgetter_registered
        && p.grantsetter_registered) = true)
    (ht : p.testing = true) :
    ∃ s, server p default_check = .ok s ∧
      ∀ args : SigArgs, s.check_signature args = true := by
  refine ⟨{ check_signature := fun _ => true }, ?_, fun _ => rfl⟩
  simp [server, h0, hall, ht]

/-- Provider state for the C10 witness: all required callbacks registered,
testing mode on. -/
def c10_provider : ProviderState :=
  { clientgetter_registered := true, tokengetter_registered := true,
    tokensetter_registered := true, noncegetter_registered := true,
    noncesetter_registered := true, grantgetter_registered := true,
    grantsetter_registered := true, verifiergetter_registered := false,
    verifiersetter_registered := false, validator_cached := false,
    testing := true }

/-- Witness for C10: even with a default check that rejects everything, the
server built in testing mode accepts every signature input. -/
theorem C10_witness :
    ∃ s, server c10_provider (fun _ => false) = .ok s ∧
      ∀ args : SigArgs, s.check_signature args = true :=
  C10_testing_disables_signature_check c10_provider (fun _ => false)
    rfl rfl rfl
